import Mathlib

/-!
Shallow embedding of the VanTrack backend ledger core
(src/app/api/transactions.py, src/app/api/drafts.py,
src/app/schemas/transaction.py, src/app/models/transaction.py,
src/app/models/contact.py).

Money amounts (Python floats in the source) are modelled as exact
rationals `ℚ`; ids (UUIDs) as `Nat`; datetimes as `Nat` order keys.
The database session is modelled as an explicit `State` value holding
the contact table and the transaction table; each endpoint becomes a
pure function from request data and state to the new state together
with the returned transaction record.
-/

namespace VanTrack

/-- `TransactionType` enum from src/app/models/transaction.py. -/
inductive TransactionType where
  | expense
  | income
  | transfer
  | credit_receivable
  | credit_payable
  | loan_receivable
  | loan_payable
  | payment_received
  | payment_made
deriving DecidableEq, Repr

/-- `AccountType` enum from src/app/models/transaction.py. -/
inductive AccountType where
  | cash
  | bank
deriving DecidableEq, Repr

/-- `DebtStatus` enum from src/app/models/transaction.py.  The source
constructor names are `open`, `partial`, `settled`; the first two are Lean
keywords / reserved words, so they are rendered `open_` and `part`. -/
inductive DebtStatus where
  | open_
  | part
  | settled
deriving DecidableEq, Repr

/-- A row of the `transactions` table (src/app/models/transaction.py).
`account`, `remaining_amount` and `status` are optional exactly as the
read-side code treats them (`tx.account.value if tx.account else "cash"`;
`debt.remaining_amount if debt.remaining_amount is not None else debt.amount`). -/
structure Txn where
  id : Nat
  user_id : Nat
  date : Nat
  amount : ℚ
  description : String := ""
  category : Option String := none
  type : TransactionType
  account : Option AccountType := none
  contact_name : Option String := none
  contact_id : Option Nat := none
  due_date : Option Nat := none
  linked_transaction_id : Option Nat := none
  remaining_amount : Option ℚ := none
  status : Option DebtStatus := none
  metadata_json : Option String := none
deriving DecidableEq, Repr

/-- A row of the `contacts` table (src/app/models/contact.py); only the
fields the ledger core reads. -/
structure Contact where
  id : Nat
  user_id : Nat
  name : String
deriving DecidableEq, Repr

/-- The mutable store: contact table, transaction table, and a fresh-id
counter standing in for UUID generation. -/
structure State where
  contacts : List Contact
  txns : List Txn
  nextId : Nat
deriving DecidableEq, Repr

/-- `TransactionCreate` request schema (src/app/schemas/transaction.py).
`amount : float` carries no positivity validator in the source schema. -/
structure TxnCreate where
  amount : ℚ
  description : String := ""
  category : Option String := none
  type : TransactionType
  account : AccountType := AccountType.cash
  contact_name : Option String := none
  due_date : Option Nat := none
  linked_transaction_id : Option Nat := none
  metadata_json : Option String := none
  contact_id : Option Nat := none
deriving DecidableEq, Repr

/-- The fields of a pending `Draft` row that `confirm_draft`
(src/app/api/drafts.py) reads when building the transaction. -/
structure DraftData where
  amount : ℚ
  description : String := ""
  category : Option String := none
  type : TransactionType
  account : Option AccountType := none
  contact_name : Option String := none
  contact_id : Option Nat := none
  due_date : Option Nat := none
  linked_transaction_id : Option Nat := none
deriving DecidableEq, Repr

/-- Python truthiness of an optional string (`if tx_data.contact_name`):
`None` and the empty string are falsy. -/
def strTruthy : Option String → Bool
  | none => false
  | some s => !(s == "")

/-- Lower-casing of a string, modelling Python's `str.lower()` and SQL's
`lower()` as the character-wise map. -/
def lowerStr (s : String) : String := ⟨s.data.map Char.toLower⟩

/-- The debt-opening transaction types (credit/loan receivable/payable). -/
def isDebtType (t : TransactionType) : Bool :=
  t = TransactionType.credit_receivable || t = TransactionType.credit_payable ||
  t = TransactionType.loan_receivable || t = TransactionType.loan_payable

/-- The payment transaction types. -/
def isPaymentType (t : TransactionType) : Bool :=
  t = TransactionType.payment_received || t = TransactionType.payment_made

/-- Contact resolution, shared verbatim by `create_transaction`
(src/app/api/transactions.py lines 55-77) and `confirm_draft`
(src/app/api/drafts.py lines 197-213): if a truthy contact name is given
and no contact id, look the name up case-insensitively among the user's
contacts; on a miss insert a new contact row. -/
def resolveContact (user : Nat) (cid0 : Option Nat) (nameOpt : Option String)
    (s : State) : Option Nat × State :=
  if strTruthy nameOpt && cid0.isNone then
    match nameOpt with
    | some n =>
      match s.contacts.find? (fun c => c.user_id == user && lowerStr c.name == lowerStr n) with
      | some c => (some c.id, s)
      | none =>
        (some s.nextId,
         { s with contacts := s.contacts ++ [{ id := s.nextId, user_id := user, name := n }],
                  nextId := s.nextId + 1 })
    | none => (cid0, s)
  else (cid0, s)

/-- SQL three-valued filter `Transaction.status != DebtStatus.settled`:
a NULL status row is not selected. -/
def statusNeSettledSQL : Option DebtStatus → Bool
  | some st => st ≠ DebtStatus.settled
  | none => false

/-- SQL filter `func.lower(Transaction.contact_name) == name.lower()`:
a NULL contact_name row is not selected. -/
def contactNameLowerEq (stored : Option String) (wanted : String) : Bool :=
  match stored with
  | some m => lowerStr m == lowerStr wanted
  | none => false

/-- Stable insertion of a transaction into a date-ascending list. -/
def insertByDate (t : Txn) : List Txn → List Txn
  | [] => [t]
  | u :: us => if u.date ≤ t.date then u :: insertByDate t us else t :: u :: us

/-- Stable sort by `date` ascending, modelling
`debt_query.order_by(Transaction.date.asc())`. -/
def sortByDate : List Txn → List Txn
  | [] => []
  | t :: ts => insertByDate t (sortByDate ts)

/-- Debt directions matched by a payment
(src/app/api/transactions.py lines 126-129). -/
def debtTypesFor (t : TransactionType) : List TransactionType :=
  if t = TransactionType.payment_received then
    [TransactionType.credit_receivable, TransactionType.loan_receivable]
  else
    [TransactionType.credit_payable, TransactionType.loan_payable]

/-- The FIFO candidate-debt query of `create_transaction`
(src/app/api/transactions.py lines 131-152): the user's not-settled debts
of the matching direction, filtered by contact id (or else truthy contact
name, case-insensitively), excluding the explicitly linked id, ordered by
date ascending. -/
def fifoCandidates (user : Nat) (txd : TxnCreate) (cid : Option Nat)
    (txns : List Txn) : List Txn :=
  let base := txns.filter (fun t =>
    t.user_id == user &&
    (debtTypesFor txd.type).contains t.type &&
    statusNeSettledSQL t.status)
  let byContact :=
    match cid with
    | some c => base.filter (fun t => t.contact_id == some c)
    | none =>
      match txd.contact_name with
      | some n => if n == "" then base else base.filter (fun t => contactNameLowerEq t.contact_name n)
      | none => base
  let excl :=
    match txd.linked_transaction_id with
    | some lid => byContact.filter (fun t => t.id ≠ lid)
    | none => byContact
  sortByDate excl

/-- The full candidate list `debts_to_apply` of `create_transaction`
(src/app/api/transactions.py lines 109-153): the explicitly linked
transaction first, when it exists and belongs to the user, then — when the
payment amount is positive and a contact is identified — the FIFO
candidates. -/
def debtsToApply (user : Nat) (txd : TxnCreate) (cid : Option Nat)
    (txns : List Txn) : List Txn :=
  let explicit :=
    match txd.linked_transaction_id with
    | some lid =>
      match txns.find? (fun t => t.id == lid && t.user_id == user) with
      | some t => [t]
      | none => []
    | none => []
  let fifo :=
    if 0 < txd.amount ∧ (strTruthy txd.contact_name || cid.isSome) = true then
      fifoCandidates user txd cid txns
    else []
  explicit ++ fifo

/-- One settlement step, shared verbatim by the FIFO loop of
`create_transaction` (src/app/api/transactions.py lines 160-167) and the
single-debt update of `confirm_draft` (src/app/api/drafts.py lines
246-251): `current = remaining if set else amount`,
`apply = min(remaining_payment, current)`, new remaining `current - apply`,
status `settled` iff the new remaining is 0 else `partial`.  Returns the
updated debt row and the applied amount. -/
def applyToDebt (rp : ℚ) (debt : Txn) : Txn × ℚ :=
  let current := debt.remaining_amount.getD debt.amount
  let applyAmt := min rp current
  let newRem := current - applyAmt
  ({ debt with
      remaining_amount := some newRem,
      status := some (if newRem = 0 then DebtStatus.settled else DebtStatus.part) },
   applyAmt)

/-- The FIFO allocation loop of `create_transaction`
(src/app/api/transactions.py lines 156-184): walk the candidate debts,
stopping when the remaining payment is ≤ 0; each step settles against one
debt and records the applied amount (the amount of the payment record the
loop creates for that debt). -/
def allocateLoop : ℚ → List Txn → List (Txn × ℚ)
  | _, [] => []
  | rp, d :: ds =>
    if rp ≤ 0 then []
    else
      applyToDebt rp d :: allocateLoop (rp - (applyToDebt rp d).2) ds

/-- Write back mutated rows: each stored row is replaced by its updated
version when one exists (SQLAlchemy mutates the fetched ORM objects in
place; rows are identified by primary key). -/
def applyUpdates (updates : List Txn) (txns : List Txn) : List Txn :=
  txns.map (fun t => ((updates.find? (fun u => u.id == t.id)).getD t))

/-- The payment records created by the FIFO loop
(src/app/api/transactions.py lines 169-184): one per allocation, amount =
the applied amount, `linked_transaction_id` = the settled debt's id, the
remaining fields copied from the request. -/
def paymentsFor (user : Nat) (txd : TxnCreate) (now : Nat) (cid : Option Nat)
    (baseId : Nat) (allocs : List (Txn × ℚ)) : List Txn :=
  allocs.enum.map (fun ka =>
    { id := baseId + 1 + ka.1,
      user_id := user,
      date := now,
      amount := ka.2.2,
      description := txd.description,
      category := txd.category,
      type := txd.type,
      account := some txd.account,
      contact_name := txd.contact_name,
      contact_id := cid,
      due_date := txd.due_date,
      linked_transaction_id := some ka.2.1.id,
      remaining_amount := none,
      status := none,
      metadata_json := txd.metadata_json })

/-- `POST /transactions` — `create_transaction`
(src/app/api/transactions.py lines 49-204) as a state transformer.
`now` stands for `datetime.utcnow()` (the `date` column default).
Returns the new state and the transaction record returned to the caller.
The endpoint body raises no exception: every request that passes the
Pydantic schema is committed. -/
def create_transaction (user : Nat) (txd : TxnCreate) (now : Nat)
    (s : State) : State × Txn :=
  let rc := resolveContact user txd.contact_id txd.contact_name s
  let cid := rc.1
  let s1 := rc.2
  let new_tx : Txn :=
    { id := s1.nextId,
      user_id := user,
      date := now,
      amount := txd.amount,
      description := txd.description,
      category := txd.category,
      type := txd.type,
      account := some txd.account,
      contact_name := txd.contact_name,
      contact_id := cid,
      due_date := txd.due_date,
      linked_transaction_id := txd.linked_transaction_id,
      remaining_amount := if isDebtType txd.type then some txd.amount else none,
      status := if isDebtType txd.type then some DebtStatus.open_ else none,
      metadata_json := txd.metadata_json }
  if isPaymentType txd.type then
    let debts := debtsToApply user txd cid s1.txns
    let allocs := allocateLoop txd.amount debts
    if allocs.isEmpty then
      ({ s1 with txns := s1.txns ++ [new_tx], nextId := s1.nextId + 1 }, new_tx)
    else
      let updates := allocs.map Prod.fst
      let payments := paymentsFor user txd now cid s1.nextId allocs
      ({ s1 with
          txns := applyUpdates updates s1.txns ++ payments,
          nextId := s1.nextId + 1 + payments.length },
       payments.headD new_tx)
  else
    ({ s1 with txns := s1.txns ++ [new_tx], nextId := s1.nextId + 1 }, new_tx)

/-- `POST /drafts/{id}/confirm` — the transaction-building core of
`confirm_draft` (src/app/api/drafts.py lines 176-261), applied to the
fields of a pending draft owned by the user.  Contact resolution, then a
single transaction carrying the draft's full amount; for a payment type
with a linked transaction owned by the user, that one debt is settled by
`applyToDebt` (no FIFO spray, and the created record keeps the draft's
amount, not the applied portion). -/
def confirm_draft (user : Nat) (draft : DraftData) (now : Nat)
    (s : State) : State × Txn :=
  let rc := resolveContact user draft.contact_id draft.contact_name s
  let cid := rc.1
  let s1 := rc.2
  let new_tx : Txn :=
    { id := s1.nextId,
      user_id := user,
      date := now,
      amount := draft.amount,
      description := draft.description,
      category := draft.category,
      type := draft.type,
      account := draft.account,
      contact_name := draft.contact_name,
      contact_id := cid,
      due_date := draft.due_date,
      linked_transaction_id := draft.linked_transaction_id,
      remaining_amount := if isDebtType draft.type then some draft.amount else none,
      status := if isDebtType draft.type then some DebtStatus.open_ else none,
      metadata_json := none }
  let s2 :=
    if isPaymentType draft.type then
      match draft.linked_transaction_id with
      | some lid =>
        match s1.txns.find? (fun t => t.id == lid && t.user_id == user) with
        | some linked =>
          { s1 with txns := applyUpdates [(applyToDebt draft.amount linked).1] s1.txns }
        | none => s1
      | none => s1
    else s1
  ({ s2 with txns := s2.txns ++ [new_tx], nextId := s2.nextId + 1 }, new_tx)

/-- The four running totals of `GET /transactions/balances`
(src/app/api/transactions.py lines 207-247). -/
structure BalanceSummary where
  cash : ℚ
  bank : ℚ
  credit : ℚ
  loan : ℚ
deriving DecidableEq, Repr

/-- `balances[acct] += d` where `acct` is `cash` or `bank`. -/
def addAcct (b : BalanceSummary) (a : AccountType) (d : ℚ) : BalanceSummary :=
  match a with
  | AccountType.cash => { b with cash := b.cash + d }
  | AccountType.bank => { b with bank := b.bank + d }

/-- `balances["credit"] += d`. -/
def addCredit (b : BalanceSummary) (d : ℚ) : BalanceSummary :=
  { b with credit := b.credit + d }

/-- `balances["loan"] += d`. -/
def addLoan (b : BalanceSummary) (d : ℚ) : BalanceSummary :=
  { b with loan := b.loan + d }

/-- One iteration of the balance loop (src/app/api/transactions.py lines
219-246): `acct` defaults to `cash` when the account is unset, then the
per-type accumulation rules. -/
def applyTx (b : BalanceSummary) (t : Txn) : BalanceSummary :=
  let amt := t.amount
  let acct := t.account.getD AccountType.cash
  match t.type with
  | TransactionType.income => addAcct b acct amt
  | TransactionType.expense => addAcct b acct (-amt)
  | TransactionType.credit_receivable => addCredit b amt
  | TransactionType.credit_payable => addLoan b amt
  | TransactionType.loan_receivable => addCredit (addAcct b acct (-amt)) amt
  | TransactionType.loan_payable => addLoan (addAcct b acct amt) amt
  | TransactionType.payment_received => addCredit (addAcct b acct amt) (-amt)
  | TransactionType.payment_made => addLoan (addAcct b acct (-amt)) (-amt)
  | TransactionType.transfer => addAcct b acct (-amt)

/-- `GET /transactions/balances` — `get_balances`
(src/app/api/transactions.py lines 207-247): a pure fold over the user's
transactions starting from all-zero totals; it writes nothing back. -/
def get_balances (txns : List Txn) : BalanceSummary :=
  txns.foldl applyTx { cash := 0, bank := 0, credit := 0, loan := 0 }

/-- Componentwise sum of two balance summaries. -/
def baddB (x y : BalanceSummary) : BalanceSummary :=
  { cash := x.cash + y.cash, bank := x.bank + y.bank,
    credit := x.credit + y.credit, loan := x.loan + y.loan }

/-- The contribution of a single transaction to the balance totals. -/
def txDelta (t : Txn) : BalanceSummary :=
  applyTx { cash := 0, bank := 0, credit := 0, loan := 0 } t

/-- The status/remaining consistency predicate of the spec: `settled` iff
remaining is exactly 0, and `partial` whenever a remaining amount is
recorded and non-zero. -/
def statusOk (t : Txn) : Prop :=
  (t.status = some DebtStatus.settled ↔ t.remaining_amount = some 0) ∧
  (∀ r : ℚ, t.remaining_amount = some r → r ≠ 0 → t.status = some DebtStatus.part)

/-! ### Concrete scenarios from the spec's Testable Properties section -/

/-- Debt D1 of the FIFO scenario: Jan 1 (date key 1), amount 100, open. -/
def D1 : Txn :=
  { id := 10, user_id := 7, date := 1, amount := 100, type := .credit_receivable,
    account := some .cash, contact_name := some ("Ana"), contact_id := some 1,
    remaining_amount := some 100, status := some .open_ }

/-- Debt D2 of the FIFO scenario: Feb 1 (date key 2), amount 50, open. -/
def D2 : Txn :=
  { id := 11, user_id := 7, date := 2, amount := 50, type := .credit_receivable,
    account := some .cash, contact_name := some ("Ana"), contact_id := some 1,
    remaining_amount := some 50, status := some .open_ }

/-- Store for the FIFO scenario: contact "Ana" and her two open debts. -/
def anaState : State :=
  { contacts := [{ id := 1, user_id := 7, name := "Ana" }], txns := [D1, D2], nextId := 100 }

/-- The `payment_received` request of 120 for "Ana" with no explicit link. -/
def anaReq : TxnCreate :=
  { amount := 120, description := "pay", type := .payment_received,
    account := .cash, contact_name := some ("Ana") }

/-- D1 after the FIFO allocation: fully settled. -/
def anaD1After : Txn := { D1 with remaining_amount := some 0, status := some .settled }

/-- D2 after the FIFO allocation: 20 applied, 30 left, partial. -/
def anaD2After : Txn := { D2 with remaining_amount := some 30, status := some .part }

/-- First created payment record: 100 against D1. -/
def anaPay1 : Txn :=
  { id := 101, user_id := 7, date := 50, amount := 100, description := "pay",
    type := .payment_received, account := some .cash, contact_name := some ("Ana"),
    contact_id := some 1, linked_transaction_id := some 10 }

/-- Second created payment record: 20 against D2. -/
def anaPay2 : Txn :=
  { id := 102, user_id := 7, date := 50, amount := 20, description := "pay",
    type := .payment_received, account := some .cash, contact_name := some ("Ana"),
    contact_id := some 1, linked_transaction_id := some 11 }

/-- The balance scenario's transaction list: income 100 cash, expense 30
cash, credit_receivable 50, payment_received 50 linked to that debt. -/
def bal7 : List Txn :=
  [ { id := 1, user_id := 7, date := 1, amount := 100, type := .income, account := some .cash },
    { id := 2, user_id := 7, date := 2, amount := 30, type := .expense, account := some .cash },
    { id := 3, user_id := 7, date := 3, amount := 50, type := .credit_receivable,
      account := some .cash, contact_name := some ("Ana"),
      remaining_amount := some 0, status := some .settled },
    { id := 4, user_id := 7, date := 4, amount := 50, type := .payment_received,
      account := some .cash, contact_name := some ("Ana"), linked_transaction_id := some 3 } ]

/-- A lone open debt of 100 awaiting a draft-confirmed payment. -/
def debtX : Txn :=
  { id := 10, user_id := 7, date := 1, amount := 100, type := .credit_receivable,
    account := some .cash, remaining_amount := some 100, status := some .open_ }

/-- Store holding only `debtX`. -/
def stX : State := { contacts := [], txns := [debtX], nextId := 100 }

/-- A pending draft: `payment_received` of 120 explicitly linked to `debtX`,
which only has 100 remaining. -/
def draftX : DraftData :=
  { amount := 120, type := .payment_received, account := some .cash,
    linked_transaction_id := some 10 }

/-- A payment request of 50 whose `linked_transaction_id` (99) matches no
transaction at all, with no contact given. -/
def c4req : TxnCreate :=
  { amount := 50, type := .payment_received, account := .cash,
    linked_transaction_id := some 99 }

/-- An empty store (id counter at 100). -/
def c4st : State := { contacts := [], txns := [], nextId := 100 }

/-- A `payment_made` request of 75 whose `linked_transaction_id` (404) is
dangling. -/
def c5req : TxnCreate :=
  { amount := 75, type := .payment_made, account := .cash,
    linked_transaction_id := some 404 }

/-- An empty store (id counter at 200). -/
def c5st : State := { contacts := [], txns := [], nextId := 200 }

/-- An open debt of 40 that a negative payment must not touch. -/
def debt6 : Txn :=
  { id := 30, user_id := 7, date := 1, amount := 40, type := .credit_receivable,
    account := some .cash, remaining_amount := some 40, status := some .open_ }

/-- Store holding only `debt6`. -/
def st6 : State := { contacts := [], txns := [debt6], nextId := 300 }

/-- A `payment_received` request with the non-positive amount -5. -/
def negReq : TxnCreate :=
  { amount := -5, type := .payment_received, account := .cash }

/-- Two arbitrary transactions used to witness permutation invariance. -/
def wtx1 : Txn :=
  { id := 1, user_id := 3, date := 1, amount := 8, type := .income, account := some .cash }

/-- Second witness transaction, on the bank account. -/
def wtx2 : Txn :=
  { id := 2, user_id := 3, date := 2, amount := 5, type := .expense, account := some .bank }

/-! ### Computation of the FIFO scenario -/

theorem ana_create_eq :
    create_transaction 7 anaReq 50 anaState =
      ({ contacts := anaState.contacts,
         txns := [anaD1After, anaD2After, anaPay1, anaPay2],
         nextId := 103 }, anaPay1) := by
  have hrc : resolveContact 7 anaReq.contact_id anaReq.contact_name anaState
      = (some 1, anaState) := by
    simp [resolveContact, strTruthy, lowerStr, anaReq, anaState]
  have hdebts : debtsToApply 7 anaReq (some 1) anaState.txns = [D1, D2] := by
    norm_num [debtsToApply, fifoCandidates, sortByDate, insertByDate, statusNeSettledSQL,
      debtTypesFor, anaReq, anaState, D1, D2]
  have halloc : allocateLoop anaReq.amount [D1, D2]
      = [(anaD1After, 100), (anaD2After, 20)] := by
    norm_num [allocateLoop, applyToDebt, min_def, anaReq, D1, D2, anaD1After, anaD2After]
  rw [create_transaction]
  simp only [hrc, hdebts, halloc]
  norm_num [isPaymentType, applyUpdates, paymentsFor, isDebtType, List.enum,
    List.enumFrom, anaReq, anaState, D1, D2, anaD1After, anaD2After, anaPay1, anaPay2]

/-- C1 (counterexample): in the FIFO scenario the payment of 120 leaves
D2 with remaining 30, not 70 as the claim states. -/
theorem c1_d2_remaining_is_30_not_70 :
    ((create_transaction 7 anaReq 50 anaState).1.txns.find? (fun t => t.id == 11)).map
        Txn.remaining_amount = some (some 30) ∧
    ((create_transaction 7 anaReq 50 anaState).1.txns.find? (fun t => t.id == 11)).map
        Txn.remaining_amount ≠ some (some 70) := by
  rw [ana_create_eq]
  norm_num [anaD1After, anaD2After, anaPay1, anaPay2, D1, D2]

/-- C1 (amended): in the FIFO scenario the payment of 120 settles D1
(remaining 0, settled), reduces D2 to remaining 30 (partial), and creates
exactly two payment records, of amounts 100 and 20, linked to D1 and D2
respectively (oldest debt first); the first record is returned. -/
theorem c1_fifo_allocation_amended :
    create_transaction 7 anaReq 50 anaState =
      ({ contacts := anaState.contacts,
         txns := [anaD1After, anaD2After, anaPay1, anaPay2],
         nextId := 103 }, anaPay1) := by
  exact ana_create_eq

/-- C7: the balance scenario [income 100 cash, expense 30 cash,
credit_receivable 50, payment_received 50 linked to that debt on cash]
yields cash = 120, bank = 0, credit = 0, loan = 0. -/
theorem c7_balance_scenario :
    get_balances bal7 = { cash := 120, bank := 0, credit := 0, loan := 0 } := by
  norm_num [get_balances, applyTx, addAcct, addCredit, addLoan, bal7]

/-! ### Structural lemmas about the settlement pipeline -/

theorem resolveContact_txns (user : Nat) (cid0 : Option Nat) (nameOpt : Option String)
    (s : State) : (resolveContact user cid0 nameOpt s).2.txns = s.txns := by
  unfold resolveContact
  split
  · split
    · split <;> rfl
    · rfl
  · rfl

theorem resolveContact_none (user : Nat) (s : State) :
    resolveContact user none none s = (none, s) := by
  simp [resolveContact, strTruthy]

theorem allocateLoop_nonpos {rp : ℚ} (h : rp ≤ 0) (debts : List Txn) :
    allocateLoop rp debts = [] := by
  cases debts with
  | nil => rfl
  | cons d ds => simp [allocateLoop, h]

/-- C9: a payment request with a non-positive amount is accepted: the FIFO
loop applies nothing (every stored transaction is left as it was) and a
single standalone record is appended, carrying the non-positive amount and
the request's `linked_transaction_id` as given. -/
theorem c9_nonpositive_standalone (user now : Nat) (txd : TxnCreate) (s : State)
    (hty : isPaymentType txd.type = true) (hle : txd.amount ≤ 0) :
    (create_transaction user txd now s).1.txns
        = s.txns ++ [(create_transaction user txd now s).2] ∧
    (create_transaction user txd now s).2.amount = txd.amount ∧
    (create_transaction user txd now s).2.linked_transaction_id
        = txd.linked_transaction_id := by
  rw [create_transaction]
  simp [hty, allocateLoop_nonpos hle, resolveContact_txns]

/-- C9 witness: the concrete request `negReq` (amount -5) against `st6`. -/
theorem c9_nonpositive_standalone_witness :
    (isPaymentType negReq.type = true ∧ negReq.amount ≤ 0) ∧
    ((create_transaction 7 negReq 9 st6).1.txns
        = st6.txns ++ [(create_transaction 7 negReq 9 st6).2] ∧
     (create_transaction 7 negReq 9 st6).2.amount = negReq.amount ∧
     (create_transaction 7 negReq 9 st6).2.linked_transaction_id
        = negReq.linked_transaction_id) :=
  ⟨⟨by decide, by norm_num [negReq]⟩,
   c9_nonpositive_standalone 7 9 negReq st6 (by decide) (by norm_num [negReq])⟩

/-- C6 (counterexample): the `payment_received` of -5 is not rejected —
a transaction record carrying amount -5 is committed. -/
theorem c6_negative_payment_not_rejected :
    (create_transaction 7 negReq 9 st6).1.txns
        = st6.txns ++ [(create_transaction 7 negReq 9 st6).2] ∧
    (create_transaction 7 negReq 9 st6).2.amount = -5 := by
  rw [create_transaction]
  norm_num [negReq, st6, debt6, isPaymentType, isDebtType, resolveContact_none,
    debtsToApply, fifoCandidates, strTruthy, allocateLoop, sortByDate]

/-- C6 (amended): a non-positive payment amount is not rejected; instead,
no debt row is changed (the allocation loop applies nothing) and one
standalone transaction carrying the non-positive amount is persisted. -/
theorem c6_nonpositive_amount_accepted (user now : Nat) (txd : TxnCreate) (s : State)
    (hty : isPaymentType txd.type = true) (hle : txd.amount ≤ 0) :
    (create_transaction user txd now s).1.txns
        = s.txns ++ [(create_transaction user txd now s).2] ∧
    (create_transaction user txd now s).2.amount ≤ 0 := by
  rw [create_transaction]
  simp [hty, allocateLoop_nonpos hle, resolveContact_txns]
  exact hle

/-- C6 witness: the amended statement at the concrete request `negReq`. -/
theorem c6_nonpositive_amount_accepted_witness :
    (isPaymentType negReq.type = true ∧ negReq.amount ≤ 0) ∧
    ((create_transaction 11 negReq 9 c4st).1.txns
        = c4st.txns ++ [(create_transaction 11 negReq 9 c4st).2] ∧
     (create_transaction 11 negReq 9 c4st).2.amount ≤ 0) :=
  ⟨⟨by decide, by norm_num [negReq]⟩,
   c6_nonpositive_amount_accepted 11 9 negReq c4st (by decide) (by norm_num [negReq])⟩

/-- C4 (counterexample): a payment of 50 with a dangling
`linked_transaction_id` (99) and no contact has an empty candidate list,
and the standalone record the fallback creates still carries
`linked_transaction_id = some 99` — not "no linked_transaction_id". -/
theorem c4_standalone_carries_dangling_link :
    debtsToApply 7 c4req none c4st.txns = [] ∧
    (create_transaction 7 c4req 5 c4st).1.txns = [(create_transaction 7 c4req 5 c4st).2] ∧
    (create_transaction 7 c4req 5 c4st).2.amount = 50 ∧
    (create_transaction 7 c4req 5 c4st).2.linked_transaction_id = some 99 := by
  refine ⟨by norm_num [debtsToApply, c4req, c4st, strTruthy], ?_⟩
  rw [create_transaction]
  norm_num [c4req, c4st, isPaymentType, isDebtType, resolveContact_none,
    debtsToApply, strTruthy, allocateLoop]

/-- C4 (amended): when the candidate-debt list ends up empty, exactly one
standalone payment transaction is created, carrying the full original
amount and the request's `linked_transaction_id` field unchanged (absent
only when the request supplied none). -/
theorem c4_no_debt_fallback_amended (user now : Nat) (txd : TxnCreate) (s : State)
    (hty : isPaymentType txd.type = true)
    (hempty : debtsToApply user txd
        (resolveContact user txd.contact_id txd.contact_name s).1 s.txns = []) :
    (create_transaction user txd now s).1.txns
        = s.txns ++ [(create_transaction user txd now s).2] ∧
    (create_transaction user txd now s).2.amount = txd.amount ∧
    (create_transaction user txd now s).2.linked_transaction_id
        = txd.linked_transaction_id := by
  rw [create_transaction]
  simp [hty, resolveContact_txns, hempty, allocateLoop]

/-- C4 witness: the amended statement at the concrete request `c4req`. -/
theorem c4_no_debt_fallback_amended_witness :
    (isPaymentType c4req.type = true ∧
     debtsToApply 7 c4req
        (resolveContact 7 c4req.contact_id c4req.contact_name c4st).1 c4st.txns = []) ∧
    ((create_transaction 7 c4req 5 c4st).1.txns
        = c4st.txns ++ [(create_transaction 7 c4req 5 c4st).2] ∧
     (create_transaction 7 c4req 5 c4st).2.amount = c4req.amount ∧
     (create_transaction 7 c4req 5 c4st).2.linked_transaction_id
        = c4req.linked_transaction_id) :=
  ⟨⟨by decide, by norm_num [debtsToApply, c4req, c4st, resolveContact_none, strTruthy]⟩,
   c4_no_debt_fallback_amended 7 5 c4req c4st (by decide)
     (by norm_num [debtsToApply, c4req, c4st, resolveContact_none, strTruthy])⟩

/-- C5 (counterexample): a payment whose `linked_transaction_id` (404)
matches no transaction does not fail: the operation returns a created
record and commits it (the store gains one transaction). -/
theorem c5_dangling_link_does_not_fail :
    (create_transaction 7 c5req 9 c5st).1.txns.length = c5st.txns.length + 1 ∧
    (create_transaction 7 c5req 9 c5st).2.amount = 75 := by
  rw [create_transaction]
  norm_num [c5req, c5st, isPaymentType, isDebtType, resolveContact_none,
    debtsToApply, strTruthy, allocateLoop]

/-- C5 (amended): a `linked_transaction_id` that does not resolve to a
transaction of the requesting user is silently ignored — the lookup finds
nothing, the operation completes, and (with no contact to walk) a
standalone record still carrying the dangling id is committed; nothing is
reported to the caller and the commit does happen. -/
theorem c5_dangling_link_silently_ignored (user now : Nat) (txd : TxnCreate)
    (s : State) (lid : Nat)
    (hty : isPaymentType txd.type = true)
    (hlink : txd.linked_transaction_id = some lid)
    (hmiss : ∀ t ∈ s.txns, ¬(t.id = lid ∧ t.user_id = user))
    (hname : txd.contact_name = none)
    (hcid : txd.contact_id = none) :
    (create_transaction user txd now s).1.txns
        = s.txns ++ [(create_transaction user txd now s).2] ∧
    (create_transaction user txd now s).2.linked_transaction_id = some lid ∧
    (create_transaction user txd now s).2.amount = txd.amount := by
  have hfind : s.txns.find? (fun t => t.id == lid && t.user_id == user) = none := by
    rw [List.find?_eq_none]
    intro t ht
    simp only [Bool.and_eq_true, beq_iff_eq, not_and]
    intro h1 h2
    exact hmiss t ht ⟨h1, h2⟩
  have hdebts : debtsToApply user txd none s.txns = [] := by
    simp [debtsToApply, hlink, hfind, hname, strTruthy]
  rw [create_transaction]
  rw [hcid, hname, resolveContact_none]
  simp [hty, hdebts, allocateLoop, hlink]

/-- C5 witness: the amended statement at the concrete request `c5req`. -/
theorem c5_dangling_link_silently_ignored_witness :
    (isPaymentType c5req.type = true ∧ c5req.linked_transaction_id = some 404 ∧
     (∀ t ∈ c5st.txns, ¬(t.id = 404 ∧ t.user_id = 7)) ∧
     c5req.contact_name = none ∧ c5req.contact_id = none) ∧
    ((create_transaction 7 c5req 9 c5st).1.txns
        = c5st.txns ++ [(create_transaction 7 c5req 9 c5st).2] ∧
     (create_transaction 7 c5req 9 c5st).2.linked_transaction_id = some 404 ∧
     (create_transaction 7 c5req 9 c5st).2.amount = c5req.amount) :=
  ⟨⟨by decide, by decide, by simp [c5st], by decide, by decide⟩,
   c5_dangling_link_silently_ignored 7 9 c5req c5st 404 (by decide) (by decide)
     (by simp [c5st]) (by decide) (by decide)⟩

/-! ### The balance fold is a sum of per-transaction deltas -/

theorem applyTx_eq_badd (b : BalanceSummary) (t : Txn) :
    applyTx b t = baddB b (txDelta t) := by
  cases hty : t.type <;>
    rcases hac : t.account with _ | a <;>
    (try cases a) <;>
    simp [applyTx, txDelta, baddB, addAcct, addCredit, addLoan, hty, hac,
      BalanceSummary.mk.injEq]

theorem applyTx_swap (b : BalanceSummary) (x y : Txn) :
    applyTx (applyTx b x) y = applyTx (applyTx b y) x := by
  rw [applyTx_eq_badd, applyTx_eq_badd b x, applyTx_eq_badd, applyTx_eq_badd b y]
  simp only [baddB, BalanceSummary.mk.injEq]
  refine ⟨?_, ?_, ?_, ?_⟩ <;> ring

theorem foldl_applyTx_perm {l₁ l₂ : List Txn} (h : l₁.Perm l₂) :
    ∀ b : BalanceSummary, l₁.foldl applyTx b = l₂.foldl applyTx b := by
  induction h with
  | nil => intro b; rfl
  | cons x _ ih => intro b; simp only [List.foldl_cons]; exact ih _
  | swap x y l => intro b; simp only [List.foldl_cons]; rw [applyTx_swap]
  | trans _ _ ih₁ ih₂ => intro b; rw [ih₁ b, ih₂ b]

/-- C8: the balance aggregator is order-independent — for any two
transaction lists that are permutations of each other the four totals
agree.  (It is pure by construction: `get_balances` is a function of the
transaction list alone and returns only the four totals.) -/
theorem c8_balances_permutation_invariant (l₁ l₂ : List Txn) (h : l₁.Perm l₂) :
    get_balances l₁ = get_balances l₂ := by
  unfold get_balances
  exact foldl_applyTx_perm h _

/-- C8 witness: the two-transaction list [wtx1, wtx2] against its
transposition. -/
theorem c8_balances_permutation_invariant_witness :
    [wtx1, wtx2].Perm [wtx2, wtx1] ∧
    get_balances [wtx1, wtx2] = get_balances [wtx2, wtx1] :=
  ⟨List.Perm.swap wtx2 wtx1 [],
   c8_balances_permutation_invariant [wtx1, wtx2] [wtx2, wtx1]
     (List.Perm.swap wtx2 wtx1 [])⟩

/-! ### Lemmas about the allocation loop -/

theorem allocateLoop_mem {rp : ℚ} {debts : List Txn} {p : Txn × ℚ}
    (hp : p ∈ allocateLoop rp debts) :
    ∃ d ∈ debts, ∃ rp' : ℚ, applyToDebt rp' d = p := by
  induction debts generalizing rp with
  | nil => simp [allocateLoop] at hp
  | cons d ds ih =>
    by_cases h : rp ≤ 0
    · simp [allocateLoop, h] at hp
    · rw [allocateLoop] at hp
      simp only [h, if_false] at hp
      rcases List.mem_cons.mp hp with h1 | h1
      · exact ⟨d, List.mem_cons_self d ds, rp, h1.symm⟩
      · obtain ⟨d₀, hd₀, rp', h2⟩ := ih h1
        exact ⟨d₀, List.mem_cons_of_mem d hd₀, rp', h2⟩

theorem applyToDebt_statusOk (rp : ℚ) (d : Txn) : statusOk (applyToDebt rp d).1 := by
  have hcur : (applyToDebt rp d).1.remaining_amount
      = some (d.remaining_amount.getD d.amount
          - min rp (d.remaining_amount.getD d.amount)) := rfl
  have hst : (applyToDebt rp d).1.status
      = some (if d.remaining_amount.getD d.amount
            - min rp (d.remaining_amount.getD d.amount) = 0
          then DebtStatus.settled else DebtStatus.part) := rfl
  constructor
  · rw [hcur, hst]
    by_cases h : d.remaining_amount.getD d.amount
        - min rp (d.remaining_amount.getD d.amount) = 0
    · simp [h]
    · simp [h]
  · intro r hr hne
    rw [hcur] at hr
    rw [hst]
    have heq : d.remaining_amount.getD d.amount
        - min rp (d.remaining_amount.getD d.amount) = r := Option.some.inj hr
    simp [heq, hne]

theorem applyUpdates_mem {updates txns : List Txn} {t' : Txn}
    (h : t' ∈ applyUpdates updates txns) : t' ∈ txns ∨ t' ∈ updates := by
  unfold applyUpdates at h
  rw [List.mem_map] at h
  obtain ⟨t, ht, heq⟩ := h
  cases hf : updates.find? (fun u => u.id == t.id) with
  | none =>
    rw [hf] at heq
    simp only [Option.getD_none] at heq
    exact Or.inl (heq ▸ ht)
  | some u =>
    rw [hf] at heq
    simp only [Option.getD_some] at heq
    exact Or.inr (heq ▸ List.mem_of_find?_eq_some hf)

theorem isPaymentType_not_debt {ty : TransactionType} (h : isPaymentType ty = true) :
    isDebtType ty = false := by
  cases ty <;> simp_all [isPaymentType, isDebtType]

theorem statusOk_none {t : Txn} (h1 : t.status = none) (h2 : t.remaining_amount = none) :
    statusOk t := by
  simp [statusOk, h1, h2]

/-- C3 (counterexample): confirming the draft `draftX` (payment of 120
linked to `debtX`, which has only 100 remaining) applies 100 to the debt
(it ends settled at remaining 0) but persists a payment record carrying
the full draft amount 120 — not the applied portion min(120, 100) = 100. -/
theorem c3_draft_payment_keeps_full_amount :
    (confirm_draft 7 draftX 5 stX).2.amount = 120 ∧
    (confirm_draft 7 draftX 5 stX).2.linked_transaction_id = some 10 ∧
    ((confirm_draft 7 draftX 5 stX).1.txns.find? (fun t => t.id == 10)).map
        Txn.remaining_amount = some (some 0) ∧
    min (120 : ℚ) 100 ≠ 120 := by
  rw [confirm_draft]
  norm_num [draftX, stX, debtX, isPaymentType, isDebtType, resolveContact_none,
    applyToDebt, applyUpdates, min_def]

theorem allocateLoop_getElem (rp : ℚ) (debts : List Txn) (i : Nat)
    (hi : i < (allocateLoop rp debts).length) :
    ∃ d, debts[i]? = some d ∧
      (allocateLoop rp debts)[i]?
        = some (applyToDebt
            (rp - (((allocateLoop rp debts).take i).map Prod.snd).sum) d) := by
  induction debts generalizing rp i with
  | nil => simp [allocateLoop] at hi
  | cons d ds ih =>
    by_cases h : rp ≤ 0
    · simp [allocateLoop, h] at hi
    · rw [allocateLoop] at hi ⊢
      simp only [h, if_false] at hi ⊢
      cases i with
      | zero =>
        refine ⟨d, List.getElem?_cons_zero, ?_⟩
        rw [List.take_zero, List.map_nil, List.sum_nil, sub_zero, List.getElem?_cons_zero]
      | succ j =>
        have hj : j < (allocateLoop (rp - (applyToDebt rp d).2) ds).length := by
          simpa using hi
        obtain ⟨d₀, hd₀, hg⟩ := ih (rp - (applyToDebt rp d).2) j hj
        refine ⟨d₀, by simpa using hd₀, ?_⟩
        rw [List.getElem?_cons_succ, hg, List.take_succ_cons, List.map_cons,
          List.sum_cons, sub_sub]

/-- C3 (amended): the i-th payment record created by the FIFO path links
to the i-th candidate debt, and its amount is exactly the portion applied
to that debt: the min of the actual running payment remainder (the
original amount minus everything applied to earlier candidates) and that
debt's prior remaining.  The i-th updated debt row written back is exactly
the settlement of that debt at that remainder, so its remaining drops by
exactly the payment record's amount — never the original unallocated
total.  (The draft path instead persists the full draft amount; see the
counterexample.) -/
theorem c3_payment_amount_is_portion_applied
    (user now baseId : Nat) (txd : TxnCreate) (cid : Option Nat) (rp : ℚ)
    (debts : List Txn) (i : Nat)
    (hi : i < (paymentsFor user txd now cid baseId (allocateLoop rp debts)).length) :
    ∃ d p u,
      debts[i]? = some d ∧
      (paymentsFor user txd now cid baseId (allocateLoop rp debts))[i]? = some p ∧
      ((allocateLoop rp debts).map Prod.fst)[i]? = some u ∧
      p.linked_transaction_id = some d.id ∧
      p.amount = min (rp - (((allocateLoop rp debts).take i).map Prod.snd).sum)
          (d.remaining_amount.getD d.amount) ∧
      u = (applyToDebt (rp - (((allocateLoop rp debts).take i).map Prod.snd).sum) d).1 ∧
      u.remaining_amount = some (d.remaining_amount.getD d.amount - p.amount) := by
  have hilen : i < (allocateLoop rp debts).length := by
    unfold paymentsFor at hi
    simpa [List.enum_length] using hi
  obtain ⟨d, hd, hg⟩ := allocateLoop_getElem rp debts i hilen
  have hp : (paymentsFor user txd now cid baseId (allocateLoop rp debts))[i]?
      = some { id := baseId + 1 + i, user_id := user, date := now,
               amount := (applyToDebt
                 (rp - (((allocateLoop rp debts).take i).map Prod.snd).sum) d).2,
               description := txd.description, category := txd.category,
               type := txd.type, account := some txd.account,
               contact_name := txd.contact_name, contact_id := cid,
               due_date := txd.due_date,
               linked_transaction_id := some (applyToDebt
                 (rp - (((allocateLoop rp debts).take i).map Prod.snd).sum) d).1.id,
               remaining_amount := none, status := none,
               metadata_json := txd.metadata_json } := by
    unfold paymentsFor
    rw [List.getElem?_map, List.getElem?_enum, hg]
    rfl
  have hu : ((allocateLoop rp debts).map Prod.fst)[i]?
      = some (applyToDebt
          (rp - (((allocateLoop rp debts).take i).map Prod.snd).sum) d).1 := by
    rw [List.getElem?_map, hg]
    rfl
  exact ⟨d, _, _, hd, hp, hu, rfl, rfl, rfl, rfl⟩

/-- C3 witness: the second FIFO payment record of the Ana scenario, whose
amount 20 = min(120 - 100, 50) is the portion applied to debt D2. -/
theorem c3_payment_amount_is_portion_applied_witness :
    (1 < (paymentsFor 7 anaReq 50 (some 1) 100 (allocateLoop 120 [D1, D2])).length) ∧
    (∃ d p u,
      ([D1, D2] : List Txn)[1]? = some d ∧
      (paymentsFor 7 anaReq 50 (some 1) 100 (allocateLoop 120 [D1, D2]))[1]? = some p ∧
      ((allocateLoop 120 [D1, D2]).map Prod.fst)[1]? = some u ∧
      p.linked_transaction_id = some d.id ∧
      p.amount = min ((120 : ℚ) - (((allocateLoop 120 [D1, D2]).take 1).map Prod.snd).sum)
          (d.remaining_amount.getD d.amount) ∧
      u = (applyToDebt ((120 : ℚ)
            - (((allocateLoop 120 [D1, D2]).take 1).map Prod.snd).sum) d).1 ∧
      u.remaining_amount = some (d.remaining_amount.getD d.amount - p.amount)) :=
  ⟨by norm_num [paymentsFor, allocateLoop, applyToDebt, min_def, List.enum,
      List.enumFrom, D1, D2],
   c3_payment_amount_is_portion_applied 7 50 100 anaReq (some 1) 120 [D1, D2] 1
     (by norm_num [paymentsFor, allocateLoop, applyToDebt, min_def, List.enum,
        List.enumFrom, D1, D2])⟩

/-- C2: after either settlement operation — payment creation with its FIFO
loop, or draft confirmation with its single-debt update — every
transaction in the store is either untouched (still literally an element
of the old store) or satisfies the status/remaining consistency predicate:
`settled` iff remaining = 0, and `partial` whenever remaining is present
and non-zero. -/
theorem c2_status_settled_iff_zero
    (user now : Nat) (txd : TxnCreate) (draft : DraftData) (s sd : State)
    (hc : isPaymentType txd.type = true) (hd : isPaymentType draft.type = true) :
    (∀ t' ∈ (create_transaction user txd now s).1.txns, t' ∈ s.txns ∨ statusOk t') ∧
    (∀ t' ∈ (confirm_draft user draft now sd).1.txns, t' ∈ sd.txns ∨ statusOk t') := by
  constructor
  · intro t' ht'
    rw [create_transaction] at ht'
    simp only [hc, if_true] at ht'
    split at ht'
    · simp only [resolveContact_txns] at ht'
      rcases List.mem_append.mp ht' with h | h
      · exact Or.inl h
      · right
        rw [List.mem_singleton] at h
        subst h
        exact statusOk_none (by simp [isPaymentType_not_debt hc])
          (by simp [isPaymentType_not_debt hc])
    · rcases List.mem_append.mp ht' with h | h
      · rcases applyUpdates_mem h with h1 | h1
        · rw [resolveContact_txns] at h1
          exact Or.inl h1
        · right
          rw [List.mem_map] at h1
          obtain ⟨p, hp, hp1⟩ := h1
          obtain ⟨d, _, rp', had⟩ := allocateLoop_mem hp
          rw [← hp1, ← had]
          exact applyToDebt_statusOk rp' d
      · right
        unfold paymentsFor at h
        rw [List.mem_map] at h
        obtain ⟨ka, _, hka⟩ := h
        rw [← hka]
        exact statusOk_none rfl rfl
  · intro t' ht'
    rw [confirm_draft] at ht'
    simp only [hd, if_true] at ht'
    rcases List.mem_append.mp ht' with h | h
    · rcases hl : draft.linked_transaction_id with _ | lid
      · simp only [hl, resolveContact_txns] at h
        exact Or.inl h
      · simp only [hl, resolveContact_txns] at h
        rcases hf : sd.txns.find? (fun t => t.id == lid && t.user_id == user) with _ | linked
        · simp only [hf, resolveContact_txns] at h
          exact Or.inl h
        · simp only [hf] at h
          rcases applyUpdates_mem h with h1 | h1
          · exact Or.inl h1
          · right
            rw [List.mem_singleton] at h1
            subst h1
            exact applyToDebt_statusOk draft.amount linked
    · right
      rw [List.mem_singleton] at h
      subst h
      exact statusOk_none (by simp [isPaymentType_not_debt hd])
        (by simp [isPaymentType_not_debt hd])

/-- C2 witness: the create path at `negReq`/`c4st` and the draft path at
`draftX`/`stX`. -/
theorem c2_status_settled_iff_zero_witness :
    (isPaymentType negReq.type = true ∧ isPaymentType draftX.type = true) ∧
    ((∀ t' ∈ (create_transaction 7 negReq 9 c4st).1.txns, t' ∈ c4st.txns ∨ statusOk t') ∧
     (∀ t' ∈ (confirm_draft 7 draftX 9 stX).1.txns, t' ∈ stX.txns ∨ statusOk t')) :=
  ⟨⟨by decide, by decide⟩,
   c2_status_settled_iff_zero 7 9 negReq draftX c4st stX (by decide) (by decide)⟩

/-! ### Frame lemmas: other users' rows are never touched -/

theorem mem_insertByDate {u t : Txn} {l : List Txn} :
    u ∈ insertByDate t l ↔ u = t ∨ u ∈ l := by
  induction l with
  | nil => simp [insertByDate]
  | cons v vs ih =>
    rw [insertByDate]
    split
    · simp only [List.mem_cons, ih]
      tauto
    · simp only [List.mem_cons]

theorem mem_sortByDate {u : Txn} {l : List Txn} : u ∈ sortByDate l ↔ u ∈ l := by
  induction l with
  | nil => simp [sortByDate]
  | cons t ts ih => simp [sortByDate, mem_insertByDate, ih]

theorem fifoCandidates_mem {user : Nat} {txd : TxnCreate} {cid : Option Nat}
    {txns : List Txn} {t : Txn} (h : t ∈ fifoCandidates user txd cid txns) :
    t ∈ txns ∧ t.user_id = user := by
  have base_extract : ∀ x : Txn,
      x ∈ txns.filter (fun u => u.user_id == user &&
        (debtTypesFor txd.type).contains u.type && statusNeSettledSQL u.status) →
      x ∈ txns ∧ x.user_id = user := by
    intro x hx
    rcases List.mem_filter.mp hx with ⟨hx1, hx2⟩
    simp only [Bool.and_eq_true, beq_iff_eq] at hx2
    exact ⟨hx1, hx2.1.1⟩
  unfold fifoCandidates at h
  rw [mem_sortByDate] at h
  rcases cid with _ | c
  · rcases hn : txd.contact_name with _ | n <;> simp only [hn] at h
    · rcases hlk : txd.linked_transaction_id with _ | lid <;> simp only [hlk] at h
      · exact base_extract t h
      · exact base_extract t (List.mem_of_mem_filter h)
    · rcases hlk : txd.linked_transaction_id with _ | lid <;> simp only [hlk] at h <;>
        split at h
      · exact base_extract t h
      · exact base_extract t (List.mem_of_mem_filter h)
      · exact base_extract t (List.mem_of_mem_filter h)
      · exact base_extract t (List.mem_of_mem_filter (List.mem_of_mem_filter h))
  · rcases hlk : txd.linked_transaction_id with _ | lid <;> simp only [hlk] at h
    · exact base_extract t (List.mem_of_mem_filter h)
    · exact base_extract t (List.mem_of_mem_filter (List.mem_of_mem_filter h))

theorem debtsToApply_mem {user : Nat} {txd : TxnCreate} {cid : Option Nat}
    {txns : List Txn} {d : Txn} (h : d ∈ debtsToApply user txd cid txns) :
    d ∈ txns ∧ d.user_id = user := by
  unfold debtsToApply at h
  rw [List.mem_append] at h
  rcases h with h | h
  · rcases hlk : txd.linked_transaction_id with _ | lid <;> simp only [hlk] at h
    · simp at h
    · rcases hf : txns.find? (fun t => t.id == lid && t.user_id == user) with _ | t0 <;>
        simp only [hf] at h
      · simp at h
      · rw [List.mem_singleton] at h
        subst h
        have h1 := List.mem_of_find?_eq_some hf
        have h2 := List.find?_some hf
        simp only [Bool.and_eq_true, beq_iff_eq] at h2
        exact ⟨h1, h2.2⟩
  · split at h
    · exact fifoCandidates_mem h
    · simp at h

theorem paymentsFor_user {user now baseId : Nat} {txd : TxnCreate} {cid : Option Nat}
    {allocs : List (Txn × ℚ)} {x : Txn}
    (hx : x ∈ paymentsFor user txd now cid baseId allocs) : x.user_id = user := by
  unfold paymentsFor at hx
  rw [List.mem_map] at hx
  obtain ⟨ka, _, hk⟩ := hx
  rw [← hk]

theorem find?_updates_none {user : Nat} {updates L : List Txn}
    (hL : (L.map Txn.id).Nodup)
    (hup : ∀ u ∈ updates, ∃ d ∈ L, d.user_id = user ∧ u.id = d.id)
    {t : Txn} (ht : t ∈ L) (hne : t.user_id ≠ user) :
    updates.find? (fun u => u.id == t.id) = none := by
  rw [List.find?_eq_none]
  intro u hu
  simp only [beq_iff_eq]
  intro hid
  obtain ⟨d, hd, hdu, huid⟩ := hup u hu
  have hidt : d.id = t.id := by rw [← huid, hid]
  have hdt : d = t := List.inj_on_of_nodup_map hL hd ht hidt
  rw [hdt] at hdu
  exact hne hdu

theorem applyUpdates_filter_other {user : Nat} {updates : List Txn} :
    ∀ {L : List Txn},
    (∀ u ∈ updates, u.user_id = user) →
    (∀ t ∈ L, t.user_id ≠ user → updates.find? (fun u => u.id == t.id) = none) →
    (applyUpdates updates L).filter (fun t => !(t.user_id == user))
      = L.filter (fun t => !(t.user_id == user)) := by
  intro L
  induction L with
  | nil => intro _ _; rfl
  | cons t ts ih =>
    intro hall hnone
    have hts := fun x hx => hnone x (List.mem_cons_of_mem t hx)
    have hrec := ih hall hts
    unfold applyUpdates at hrec ⊢
    simp only [List.map_cons, List.filter_cons]
    by_cases ht : t.user_id = user
    · have h1 : (!(t.user_id == user)) = false := by simp [ht]
      have h2 : (!(((updates.find? (fun u => u.id == t.id)).getD t).user_id == user))
          = false := by
        cases hf : updates.find? (fun u => u.id == t.id) with
        | none => simp [ht]
        | some u => simp [hall u (List.mem_of_find?_eq_some hf)]
      rw [h1, h2]
      simpa using hrec
    · have hf := hnone t (List.mem_cons_self t ts) ht
      rw [hf]
      simp only [Option.getD_none]
      have h1 : (!(t.user_id == user)) = true := by simp [ht]
      rw [h1]
      simp only [if_true]
      rw [hrec]

/-- C10: a settlement submitted by one user never changes another user's
rows — both the explicit linked-debt lookup and the FIFO candidate query
filter on the requesting user's id, so (given distinct primary keys) the
other-user portion of the transaction table is identical before and after
`create_transaction` and `confirm_draft`. -/
theorem c10_other_users_unchanged
    (user now : Nat) (txd : TxnCreate) (draft : DraftData) (s sd : State)
    (hs : (s.txns.map Txn.id).Nodup) (hsd : (sd.txns.map Txn.id).Nodup) :
    (create_transaction user txd now s).1.txns.filter (fun t => !(t.user_id == user))
        = s.txns.filter (fun t => !(t.user_id == user)) ∧
    (confirm_draft user draft now sd).1.txns.filter (fun t => !(t.user_id == user))
        = sd.txns.filter (fun t => !(t.user_id == user)) := by
  have hupdates : ∀ (amt : ℚ) (cid : Option Nat) (L : List Txn),
      ∀ u ∈ (allocateLoop amt (debtsToApply user txd cid L)).map Prod.fst,
        ∃ d ∈ L, d.user_id = user ∧ u.id = d.id ∧ u.user_id = user := by
    intro amt cid L u hu
    rw [List.mem_map] at hu
    obtain ⟨p, hp, hp1⟩ := hu
    obtain ⟨d, hd, rp', had⟩ := allocateLoop_mem hp
    obtain ⟨hdL, hdu⟩ := debtsToApply_mem hd
    refine ⟨d, hdL, hdu, ?_, ?_⟩
    · rw [← hp1, ← had]
      rfl
    · rw [← hp1, ← had]
      exact hdu
  constructor
  · rw [create_transaction]
    split
    case isFalse hty =>
      simp only [resolveContact_txns, List.filter_append]
      simp
    case isTrue hty =>
      simp only [isPaymentType_not_debt hty, Bool.false_eq_true, if_false,
        resolveContact_txns]
      split
      · simp only [List.filter_append]
        simp
      · simp only [List.filter_append]
        have hpay : (paymentsFor user txd now
            (resolveContact user txd.contact_id txd.contact_name s).1
            (resolveContact user txd.contact_id txd.contact_name s).2.nextId
            (allocateLoop txd.amount (debtsToApply user txd
              (resolveContact user txd.contact_id txd.contact_name s).1 s.txns))).filter
                (fun t => !(t.user_id == user)) = [] := by
          rw [List.filter_eq_nil_iff]
          intro x hx
          simp [paymentsFor_user hx]
        rw [hpay, List.append_nil]
        apply applyUpdates_filter_other
        · intro u hu
          obtain ⟨_, _, _, _, h4⟩ := hupdates txd.amount
            (resolveContact user txd.contact_id txd.contact_name s).1 s.txns u hu
          exact h4
        · intro t ht hne
          apply find?_updates_none hs _ ht hne
          intro u hu
          obtain ⟨d, hd, h2, h3, _⟩ := hupdates txd.amount
            (resolveContact user txd.contact_id txd.contact_name s).1 s.txns u hu
          exact ⟨d, hd, h2, h3⟩
  · rw [confirm_draft]
    split
    · rcases hl : draft.linked_transaction_id with _ | lid <;>
        simp only [hl, resolveContact_txns]
      · simp only [List.filter_append]
        simp
      · rcases hf : sd.txns.find? (fun t => t.id == lid && t.user_id == user)
            with _ | linked <;> simp only [hf]
        · simp only [resolveContact_txns, List.filter_append]
          simp
        · have hlu : linked.user_id = user := by
            have h2 := List.find?_some hf
            simp only [Bool.and_eq_true, beq_iff_eq] at h2
            exact h2.2
          simp only [List.filter_append]
          have hone : (applyUpdates [(applyToDebt draft.amount linked).1] sd.txns).filter
              (fun t => !(t.user_id == user))
                = sd.txns.filter (fun t => !(t.user_id == user)) := by
            apply applyUpdates_filter_other
            · intro u hu
              rw [List.mem_singleton] at hu
              subst hu
              exact hlu
            · intro t ht hne
              apply find?_updates_none hsd _ ht hne
              intro u hu
              rw [List.mem_singleton] at hu
              subst hu
              exact ⟨linked, List.mem_of_find?_eq_some hf, hlu, rfl⟩
          rw [hone]
          simp
    · simp only [resolveContact_txns, List.filter_append]
      simp

/-- C10 witness: the Ana payment (user 7) and the draft confirmation
leave the (empty) other-user portions of both stores untouched. -/
theorem c10_other_users_unchanged_witness :
    ((anaState.txns.map Txn.id).Nodup ∧ (stX.txns.map Txn.id).Nodup) ∧
    ((create_transaction 7 anaReq 50 anaState).1.txns.filter (fun t => !(t.user_id == 7))
        = anaState.txns.filter (fun t => !(t.user_id == 7)) ∧
     (confirm_draft 7 draftX 50 stX).1.txns.filter (fun t => !(t.user_id == 7))
        = stX.txns.filter (fun t => !(t.user_id == 7))) :=
  ⟨⟨by decide, by decide⟩,
   c10_other_users_unchanged 7 50 anaReq draftX anaState stX (by decide) (by decide)⟩

end VanTrack
